import Mathlib

/-!
Verification of the scan-lifecycle client facade (`src/ui/actions/scans/scans.ts`)
of the prowler UI.

The file shallowly embeds the facade operations: JSON documents are an
inductive tree, the HTTP transport is an oracle value supplied per call
(each operation performs at most one `fetch`), thrown JavaScript errors are
modelled by their message strings, and the observable collaborator calls
(`fetch`, `revalidatePath`, `redirect`) are recorded as an ordered effect
trace returned next to the computed value.
-/

namespace ScansFacade

/-- JSON values as produced by `response.json()`.  JavaScript `undefined` is
not a JSON value; absence of a field is represented by `Option` at the
access sites, mirroring how member access yields `undefined`. -/
inductive Json where
  | null : Json
  | bool (b : Bool) : Json
  | num (n : Int) : Json
  | str (s : String) : Json
  | arr (elems : List Json) : Json
  | obj (fields : List (String × Json)) : Json

/-- First-match association lookup over the fields of a JSON object
(parsed JSON objects have distinct keys, so first match is the match). -/
def lookupField : List (String × Json) → String → Option Json
  | [], _ => none
  | (k, v) :: rest, key => if k = key then some v else lookupField rest key

/-- Optional-chaining member access `j?.k`: yields the field for an object,
and `undefined` (`none`) for every non-object, including `null`. -/
def jsGetOpt (j : Json) (k : String) : Option Json :=
  match j with
  | .obj fields => lookupField fields k
  | _ => none

/-- JavaScript truthiness of a JSON value (`NaN` does not arise: the model
has no floats). -/
def jsTruthy : Json → Bool
  | .null => false
  | .bool b => b
  | .num n => n ≠ 0
  | .str s => s ≠ ""
  | .arr _ => true
  | .obj _ => true

/-- JavaScript `String(v)` coercion, as applied by the `Error` constructor to
a non-string argument.  Array elements are joined with commas; objects print
as the standard object tag.  Only the `str` case is exercised by the claims. -/
def jsToString : Json → String
  | .null => "null"
  | .bool b => if b then "true" else "false"
  | .num n => toString n
  | .str s => s
  | .arr [] => ""
  | .arr [e] => jsToString e
  | .arr (e :: rest) => jsToString e ++ "," ++ jsToString (.arr rest)
  | .obj _ => "[object Object]"

end ScansFacade

namespace B64

/-- The RFC 4648 base64 alphabet used by `Buffer.toString("base64")`: the
uppercase letters, the lowercase letters, the digits, plus and slash. -/
def alphabet : List Char :=
  (List.range 26).map (fun i => Char.ofNat (65 + i)) ++
  (List.range 26).map (fun i => Char.ofNat (97 + i)) ++
  (List.range 10).map (fun i => Char.ofNat (48 + i)) ++ ['+', '/']

/-- Character for a six-bit group. -/
def sixtetChar (v : Nat) : Char := alphabet.getD v 'A'

/-- Index of a character in a list, or `none`. -/
def charIdx : List Char → Char → Option Nat
  | [], _ => none
  | c :: rest, d => if c = d then some 0 else (charIdx rest d).map (· + 1)

/-- Six-bit value of a base64 character (`none` for `=` and foreign chars). -/
def charVal (c : Char) : Option Nat := charIdx alphabet c

/-- Base64 encoding of a byte list, three bytes to four characters, with
`=` padding, as `Buffer.from(buf).toString("base64")` produces. -/
def encodeList : List Nat → List Char
  | [] => []
  | [a] => [sixtetChar (a / 4), sixtetChar (a % 4 * 16), '=', '=']
  | [a, b] => [sixtetChar (a / 4), sixtetChar (a % 4 * 16 + b / 16),
               sixtetChar (b % 16 * 4), '=']
  | a :: b :: c :: rest =>
      sixtetChar (a / 4) :: sixtetChar (a % 4 * 16 + b / 16) ::
      sixtetChar (b % 16 * 4 + c / 64) :: sixtetChar (c % 64) :: encodeList rest

/-- Base64 decoding of a character list, four characters to three bytes,
honouring terminal `=` padding. -/
def decodeList : List Char → Option (List Nat)
  | [] => some []
  | c1 :: c2 :: c3 :: c4 :: rest =>
      match charVal c1, charVal c2, charVal c3, charVal c4, rest with
      | some v1, some v2, some v3, some v4, _ =>
          (decodeList rest).map
            (fun t => (v1 * 4 + v2 / 16) :: (v2 % 16 * 16 + v3 / 4) ::
                      (v3 % 4 * 64 + v4) :: t)
      | some v1, some v2, some v3, none, [] =>
          if c4 = '=' then some [v1 * 4 + v2 / 16, v2 % 16 * 16 + v3 / 4]
          else none
      | some v1, some v2, none, none, [] =>
          if c3 = '=' ∧ c4 = '=' then some [v1 * 4 + v2 / 16] else none
      | _, _, _, _, _ => none
  | _ => none

/-- Base64 encoding as a string. -/
def encode (bytes : List Nat) : String := ⟨encodeList bytes⟩

/-- Base64 decoding of a string. -/
def decode (s : String) : Option (List Nat) := decodeList s.data

theorem charVal_sixtetChar_fin : ∀ v : Fin 64, charVal (sixtetChar v.val) = some v.val := by
  decide

theorem charVal_sixtetChar {v : Nat} (h : v < 64) : charVal (sixtetChar v) = some v :=
  charVal_sixtetChar_fin ⟨v, h⟩

theorem charVal_pad : charVal '=' = none := by decide

/-- Decoding inverts encoding on byte lists. -/
theorem decodeList_encodeList :
    ∀ bytes : List Nat, (∀ x ∈ bytes, x < 256) →
      decodeList (encodeList bytes) = some bytes
  | [], _ => rfl
  | [a], h => by
      have ha : a < 256 := h a (by simp)
      simp only [encodeList, decodeList,
        charVal_sixtetChar (show a / 4 < 64 by omega),
        charVal_sixtetChar (show a % 4 * 16 < 64 by omega),
        charVal_pad]
      simp
      omega
  | [a, b], h => by
      have ha : a < 256 := h a (by simp)
      have hb : b < 256 := h b (by simp)
      simp only [encodeList, decodeList,
        charVal_sixtetChar (show a / 4 < 64 by omega),
        charVal_sixtetChar (show a % 4 * 16 + b / 16 < 64 by omega),
        charVal_sixtetChar (show b % 16 * 4 < 64 by omega),
        charVal_pad]
      simp
      omega
  | a :: b :: c :: rest, h => by
      have ha : a < 256 := h a (by simp)
      have hb : b < 256 := h b (by simp)
      have hc : c < 256 := h c (by simp)
      have ih := decodeList_encodeList rest (fun x hx => h x (by simp [hx]))
      simp only [encodeList, decodeList,
        charVal_sixtetChar (show a / 4 < 64 by omega),
        charVal_sixtetChar (show a % 4 * 16 + b / 16 < 64 by omega),
        charVal_sixtetChar (show b % 16 * 4 + c / 64 < 64 by omega),
        charVal_sixtetChar (show c % 64 < 64 by omega)]
      rw [ih]
      have e1 : a / 4 * 4 + (a % 4 * 16 + b / 16) / 16 = a := by omega
      have e2 : (a % 4 * 16 + b / 16) % 16 * 16 + (b % 16 * 4 + c / 64) / 4 = b := by omega
      have e3 : (b % 16 * 4 + c / 64) % 4 * 64 + c % 64 = c := by omega
      simp [e1, e2, e3]

/-- Decoding inverts encoding on strings (round-trip law). -/
theorem decode_encode (bytes : List Nat) (h : ∀ x ∈ bytes, x < 256) :
    decode (encode bytes) = some bytes :=
  decodeList_encodeList bytes h

end B64

namespace ScansFacade

/-- Modelled from the spec: `apiBaseUrl` (imported from the `lib` module, not
in src) is the configured base URL of the remote resource API; its concrete
value is irrelevant to every claim. -/
def apiBaseUrl : String := "http://api.local/api/v1"

/-- Modelled from the spec (section 4.2): `parseStringify` (imported from the
`lib` module, not in src) deep-copies and normalizes the JSON value with no
schema validation; on a document tree this is the identity. -/
def parseStringify (j : Json) : Json := j

/-- Modelled from the spec (section 4.4): `getErrorMessage` (imported from the
`lib` module, not in src) surfaces the human-readable message of a caught
error.  Thrown errors are modelled by their message strings, so this is the
identity on the message. -/
def getErrorMessage (msg : String) : String := msg

/-- A URL under construction: base plus ordered query parameters, as built by
`new URL` followed by `url.searchParams.append` calls. -/
structure Url where
  base : String
  params : List (String × String) := []
  deriving DecidableEq

/-- One `searchParams.append(k, v)` step. -/
def Url.push (u : Url) (k v : String) : Url :=
  { u with params := u.params ++ [(k, v)] }

/-- An HTTP response as the facade observes it: status, status text, the
result of `response.json()` (`Except.error` models a thrown body-parse
error, carrying its message), and the raw bytes `response.arrayBuffer()`
would yield. -/
structure Response where
  status : Nat
  statusText : String := ""
  jsonBody : Except String Json := .ok .null
  bytes : List Nat := []

/-- `response.ok`: status in the inclusive 2xx range. -/
def Response.ok (r : Response) : Bool := 200 ≤ r.status && r.status ≤ 299

/-- The transport oracle for the single `fetch` an operation performs:
either the connection fails (`fetch` throws, carrying the message) or a
response arrives. -/
inductive FetchResult where
  | networkError (msg : String)
  | response (r : Response)

/-- Observable collaborator calls, recorded in program order. -/
inductive Effect where
  | fetch (url : Url) (body : Option Json)
  | revalidate (path : String)
  | redirectTo (path : String)

/-- Is this effect a view-invalidation notification for the scans view? -/
def Effect.isScansInvalidation : Effect → Bool
  | .revalidate p => p = "/scans"
  | _ => false

/-- Is this effect a transport call? -/
def Effect.isFetch : Effect → Bool
  | .fetch _ _ => true
  | _ => false

/-- Number of scans-view invalidation notifications in a trace. -/
def invalidations (tr : List Effect) : Nat :=
  (tr.filter Effect.isScansInvalidation).length

/-- Number of transport calls in a trace. -/
def fetchCount (tr : List Effect) : Nat :=
  (tr.filter Effect.isFetch).length

/-- The `page` argument as it arrives from JavaScript: a number, or a
non-numeric value (one for which `Number(page)` is `NaN`, e.g. a
non-numeric string; such a value is truthy and redirected before use). -/
inductive PageVal where
  | num (n : Int)
  | nonNumeric

/-- The guard `isNaN(Number(page)) || page < 1`. -/
def pageInvalid : PageVal → Bool
  | .num n => n < 1
  | .nonNumeric => true

/-- JavaScript truthiness of the page value (`if (page)`). -/
def pageTruthy : PageVal → Bool
  | .num n => n ≠ 0
  | .nonNumeric => true

/-- `page.toString()`; the non-numeric case is unreachable past the redirect
guard, so its rendering is arbitrary. -/
def pageToString : PageVal → String
  | .num n => toString n
  | .nonNumeric => "NaN"

/-- The destructured parameter object of `getScans`, with the source's
defaults.  `fields` and `filters` are ordered key-value lists, matching
JavaScript object insertion order; `include_` renders the reserved word
`include`. -/
structure ListQuery where
  page : PageVal := .num 1
  query : String := ""
  sort : String := ""
  filters : List (String × String) := []
  pageSize : Int := 10
  fields : List (String × String) := []
  include_ : String := ""

/-- The URL built by `getScans` (lines 26-42 of the source): conditional
appends for page, pageSize, query, sort, include, then one append per
`fields` entry and one per `filters` entry. -/
def scansListUrl (q : ListQuery) : Url :=
  let u0 : Url := { base := apiBaseUrl ++ "/scans" }
  let u1 := if pageTruthy q.page then u0.push "page[number]" (pageToString q.page) else u0
  let u2 := if q.pageSize ≠ 0 then u1.push "page[size]" (toString q.pageSize) else u1
  let u3 := if q.query ≠ "" then u2.push "filter[search]" q.query else u2
  let u4 := if q.sort ≠ "" then u3.push "sort" q.sort else u3
  let u5 := if q.include_ ≠ "" then u4.push "include" q.include_ else u4
  let u6 := q.fields.foldl (fun u kv => u.push ("fields[" ++ kv.1 ++ "]") kv.2) u5
  q.filters.foldl (fun u kv => u.push kv.1 kv.2) u6

/-- Outcome of a list operation: the redirect control transfer, a parsed
document, or the JavaScript `undefined` returned from the catch block. -/
inductive ListOutcome where
  | redirected (path : String)
  | doc (d : Json)
  | undef

/-- `getScans`: redirect guard, URL construction, fetch, parse, revalidate;
any thrown error inside the try is logged and `undefined` is returned. -/
def getScans (q : ListQuery) (net : FetchResult) : ListOutcome × List Effect :=
  if pageInvalid q.page then (.redirected "/scans", [.redirectTo "/scans"])
  else
    let url := scansListUrl q
    match net with
    | .networkError _ => (.undef, [.fetch url none])
    | .response r =>
        match r.jsonBody with
        | .error _ => (.undef, [.fetch url none])
        | .ok data => (.doc (parseStringify data), [.fetch url none, .revalidate "/scans"])

/-- `getScansByState`: fixed sparse-fieldset URL; on a non-ok response the
inner try throws (whether or not the body parses) and the outer catch
returns `undefined`, so every failure collapses to `undefined`. -/
def getScansByState (net : FetchResult) : ListOutcome × List Effect :=
  let url : Url := { base := apiBaseUrl ++ "/scans", params := [("fields[scans]", "state")] }
  match net with
  | .networkError _ => (.undef, [.fetch url none])
  | .response r =>
      if !r.ok then (.undef, [.fetch url none])
      else
        match r.jsonBody with
        | .error _ => (.undef, [.fetch url none])
        | .ok d => (.doc (parseStringify d), [.fetch url none])

/-- Outcome of a document operation: a parsed document, an object with an
`error` message field, or (only `scanOnDemand`) an object with `success`
false and an `error` field whose value may be `undefined`. -/
inductive MutOutcome where
  | doc (d : Json)
  | err (message : String)
  | errFlagged (detail : Option Json)

/-- `getScan`: plain fetch and parse; the catch returns an error object. -/
def getScan (scanId : String) (net : FetchResult) : MutOutcome × List Effect :=
  let url : Url := { base := apiBaseUrl ++ "/scans/" ++ scanId }
  match net with
  | .networkError m => (.err (getErrorMessage m), [.fetch url none])
  | .response r =>
      match r.jsonBody with
      | .error m => (.err (getErrorMessage m), [.fetch url none])
      | .ok d => (.doc (parseStringify d), [.fetch url none])

/-- A `FormData.get` result: a string, or `null` when the field is absent. -/
def formTruthy : Option String → Bool
  | none => false
  | some s => s ≠ ""

/-- JSON serialization of a `FormData.get` result (`null` stays `null`). -/
def formJson : Option String → Json
  | none => .null
  | some s => .str s

/-- Template-literal interpolation of a `FormData.get` result. -/
def tmplStr : Option String → String
  | none => "null"
  | some s => s

/-- A thrown TypeError message for member access on a missing value (the
engine-specific quoting of the property name is elided). -/
def typeErrorRead (base prop : String) : String :=
  "Cannot read properties of " ++ base ++ " (reading " ++ prop ++ ")"

/-- Plain (non-optional) member access `j.k`: throws on `null`, yields the
field (or `undefined`) otherwise. -/
def jsGet (j : Json) (k : String) : Except String (Option Json) :=
  match j with
  | .null => .error (typeErrorRead "null" k)
  | .obj fields => .ok (lookupField fields k)
  | _ => .ok none

/-- Member access on a possibly-`undefined` value: throws on `undefined`. -/
def jsGetU (v : Option Json) (k : String) : Except String (Option Json) :=
  match v with
  | none => .error (typeErrorRead "undefined" k)
  | some j => jsGet j k

/-- Index access `j[i]`: throws on `null`, indexes arrays and strings,
falls back to a property lookup on objects, `undefined` otherwise. -/
def jsIndex (j : Json) (i : Nat) : Except String (Option Json) :=
  match j with
  | .null => .error (typeErrorRead "null" (toString i))
  | .arr elems => .ok (elems.get? i)
  | .obj fields => .ok (lookupField fields (toString i))
  | .str s => .ok ((s.data.get? i).map (fun c => .str (String.singleton c)))
  | _ => .ok none

/-- Index access on a possibly-`undefined` value: throws on `undefined`. -/
def jsIndexU (v : Option Json) (i : Nat) : Except String (Option Json) :=
  match v with
  | none => .error (typeErrorRead "undefined" (toString i))
  | some j => jsIndex j i

/-- The expression `errorData.errors[0].detail` of `scanOnDemand`
(line 145): plain member accesses, so a missing step throws into the
surrounding catch. -/
def mutationErrorDetail (errorData : Json) : Except String (Option Json) := do
  let errs ← jsGet errorData "errors"
  let e0 ← jsIndexU errs 0
  jsGetU e0 "detail"

/-- The request body of `scanOnDemand`; the `name` attribute is present only
when the form value was truthy (the source turns an empty string into
`undefined` and then serializes an empty attributes object). -/
def scanOnDemandBody (pid : String) (scanName : Option String) : Json :=
  .obj [("data", .obj
    [("type", .str "scans"),
     ("attributes", match scanName with
       | some n => .obj [("name", .str n)]
       | none => .obj []),
     ("relationships", .obj
       [("provider", .obj
         [("data", .obj [("type", .str "providers"), ("id", .str pid)])])])])]

/-- `scanOnDemand`: validation guard before any fetch; on a non-ok response
the body is parsed and `errors[0].detail` is read with plain member access
(throwing into the catch when the path is missing); on success the scans
view is revalidated. -/
def scanOnDemand (providerId scanName : Option String) (net : FetchResult) :
    MutOutcome × List Effect :=
  let scanName := if formTruthy scanName then scanName else none
  if !formTruthy providerId then (.err "Provider ID is required", [])
  else
    let url : Url := { base := apiBaseUrl ++ "/scans" }
    let body := scanOnDemandBody (tmplStr providerId) scanName
    match net with
    | .networkError m => (.err (getErrorMessage m), [.fetch url (some body)])
    | .response r =>
        if !r.ok then
          match r.jsonBody with
          | .error m => (.err (getErrorMessage m), [.fetch url (some body)])
          | .ok errorData =>
              match mutationErrorDetail errorData with
              | .error m => (.err (getErrorMessage m), [.fetch url (some body)])
              | .ok detail => (.errFlagged detail, [.fetch url (some body)])
        else
          match r.jsonBody with
          | .error m => (.err (getErrorMessage m), [.fetch url (some body)])
          | .ok d =>
              (.doc (parseStringify d), [.fetch url (some body), .revalidate "/scans"])

/-- The request body of `scheduleDaily`. -/
def scheduleDailyBody (providerId : Option String) : Json :=
  .obj [("data", .obj
    [("type", .str "daily-schedules"),
     ("attributes", .obj [("provider_id", formJson providerId)])])]

/-- `scheduleDaily`: a non-ok response throws an error built from the status
text (the body is never consulted), caught and returned as an error object;
on success the scans view is revalidated. -/
def scheduleDaily (providerId : Option String) (net : FetchResult) :
    MutOutcome × List Effect :=
  let url : Url := { base := apiBaseUrl ++ "/schedules/daily" }
  let body := scheduleDailyBody providerId
  match net with
  | .networkError m => (.err (getErrorMessage m), [.fetch url (some body)])
  | .response r =>
      if !r.ok then
        (.err (getErrorMessage ("Failed to schedule daily: " ++ r.statusText)),
         [.fetch url (some body)])
      else
        match r.jsonBody with
        | .error m => (.err (getErrorMessage m), [.fetch url (some body)])
        | .ok d =>
            (.doc (parseStringify d), [.fetch url (some body), .revalidate "/scans"])

/-- The request body of `updateScan`. -/
def updateScanBody (scanId scanName : Option String) : Json :=
  .obj [("data", .obj
    [("type", .str "scans"),
     ("id", formJson scanId),
     ("attributes", .obj [("name", formJson scanName)])])]

/-- `updateScan`: the response status is never inspected; whenever the fetch
returns and the body parses as JSON, the scans view is revalidated and the
parsed body is returned, whatever the status was. -/
def updateScan (scanId scanName : Option String) (net : FetchResult) :
    MutOutcome × List Effect :=
  let url : Url := { base := apiBaseUrl ++ "/scans/" ++ tmplStr scanId }
  let body := updateScanBody scanId scanName
  match net with
  | .networkError m => (.err (getErrorMessage m), [.fetch url (some body)])
  | .response r =>
      match r.jsonBody with
      | .error m => (.err (getErrorMessage m), [.fetch url (some body)])
      | .ok d =>
          (.doc (parseStringify d), [.fetch url (some body), .revalidate "/scans"])

/-- Outcome of an artifact operation: the ready payload object, the pending
object (whose `taskId` and `state` fields are whatever the optional chains
produced, possibly `undefined`), or an error object. -/
inductive ArtifactOutcome where
  | ready (contentBase64 : String) (filename : String)
  | pending (taskId : Option Json) (state : Option Json)
  | err (message : String)

/-- The fixed fallback message of `getExportsZip`. -/
def reportGenericMsg : String :=
  "Unable to fetch scan report. Contact support if the issue continues."

/-- The fixed fallback message of `getComplianceCsv`. -/
def complianceGenericMsg : String :=
  "Unable to retrieve compliance report. Contact support if the issue continues."

/-- The `taskId` and `state` extracted from a 202 body:
`json?.data?.id` and `json?.data?.attributes?.state`. -/
def pendingInfo (j : Json) : Option Json × Option Json :=
  ((jsGetOpt j "data").bind (fun d => jsGetOpt d "id"),
   ((jsGetOpt j "data").bind (fun d => jsGetOpt d "attributes")).bind
     (fun a => jsGetOpt a "state"))

/-- The message thrown for a non-ok artifact response:
`errorData?.errors?.detail || generic` passed to the `Error` constructor
(`String()` coercion applies when the detail is a truthy non-string). -/
def artifactErrMsg (errorData : Json) (generic : String) : String :=
  match (jsGetOpt errorData "errors").bind (fun e => jsGetOpt e "detail") with
  | some v => if jsTruthy v then jsToString v else generic
  | none => generic

/-- The shared response classification of both artifact operations: 202
gives pending, other non-ok statuses give the extracted-or-generic error,
success encodes the raw bytes as base64. -/
def artifactClassify (url : Url) (generic : String) (filename : String)
    (net : FetchResult) : ArtifactOutcome × List Effect :=
  match net with
  | .networkError m => (.err (getErrorMessage m), [.fetch url none])
  | .response r =>
      if r.status = 202 then
        match r.jsonBody with
        | .error m => (.err (getErrorMessage m), [.fetch url none])
        | .ok j => (.pending (pendingInfo j).1 (pendingInfo j).2, [.fetch url none])
      else if !r.ok then
        match r.jsonBody with
        | .error m => (.err (getErrorMessage m), [.fetch url none])
        | .ok errorData =>
            (.err (getErrorMessage (artifactErrMsg errorData generic)),
             [.fetch url none])
      else
        (.ready (B64.encode r.bytes) filename, [.fetch url none])

/-- `getExportsZip`: GET the report endpoint and classify the response. -/
def getExportsZip (scanId : String) (net : FetchResult) :
    ArtifactOutcome × List Effect :=
  artifactClassify { base := apiBaseUrl ++ "/scans/" ++ scanId ++ "/report" }
    reportGenericMsg ("scan-" ++ scanId ++ "-report.zip") net

/-- `getComplianceCsv`: GET the compliance endpoint and classify the
response. -/
def getComplianceCsv (scanId complianceId : String) (net : FetchResult) :
    ArtifactOutcome × List Effect :=
  artifactClassify
    { base := apiBaseUrl ++ "/scans/" ++ scanId ++ "/compliance/" ++ complianceId }
    complianceGenericMsg
    ("scan-" ++ scanId ++ "-compliance-" ++ complianceId ++ ".csv") net

/-- The list-query encoding as the spec (section 4.1) words it, for
refinement comparison with the source-derived `scansListUrl`: page and
pageSize entries always first, then each optional scalar only when
non-empty, then the sparse-field entries, then the raw filter entries with
their keys verbatim. -/
def specQueryEncoding (page pageSize : Int) (search sortKey includeRel : String)
    (sparseFields filters : List (String × String)) : List (String × String) :=
  [("page[number]", toString page), ("page[size]", toString pageSize)] ++
  (if search ≠ "" then [("filter[search]", search)] else []) ++
  (if sortKey ≠ "" then [("sort", sortKey)] else []) ++
  (if includeRel ≠ "" then [("include", includeRel)] else []) ++
  sparseFields.map (fun kv => ("fields[" ++ kv.1 ++ "]", kv.2)) ++
  filters

theorem params_foldl_fields :
    ∀ (l : List (String × String)) (u : Url),
      (l.foldl (fun u kv => u.push ("fields[" ++ kv.1 ++ "]") kv.2) u).params
        = u.params ++ l.map (fun kv => ("fields[" ++ kv.1 ++ "]", kv.2))
  | [], _ => by simp
  | kv :: rest, u => by
      rw [List.foldl_cons, params_foldl_fields rest]
      simp [Url.push]

theorem params_foldl_raw :
    ∀ (l : List (String × String)) (u : Url),
      (l.foldl (fun u kv => u.push kv.1 kv.2) u).params = u.params ++ l
  | [], _ => by simp
  | kv :: rest, u => by
      rw [List.foldl_cons, params_foldl_raw rest]
      simp [Url.push]

end ScansFacade

namespace ScansFacade

/-- C6: for every `ListQuery` (page a number at least one, positive page
size), `getScans` fetches the URL built by `scansListUrl`, whose query
parameters appear deterministically in exactly the spec order — page,
pageSize, the non-empty optional scalars, the sparse-field entries, then
the raw filter entries verbatim — with absent or empty scalars omitted
entirely. -/
theorem c6_query_encoding (q : ListQuery) (net : FetchResult) (n : Int)
    (hp : q.page = .num n) (h1 : 1 ≤ n) (hps : 1 ≤ q.pageSize) :
    (scansListUrl q).params =
      specQueryEncoding n q.pageSize q.query q.sort q.include_ q.fields q.filters ∧
    (getScans q net).2.head? = some (.fetch (scansListUrl q) none) := by
  constructor
  · have hT : pageTruthy (PageVal.num n) = true := by
      simp [pageTruthy]; omega
    have hS : q.pageSize ≠ 0 := by omega
    simp only [scansListUrl, specQueryEncoding, hS, if_true, ne_eq,
      not_false_eq_true, params_foldl_fields, params_foldl_raw, hp, pageToString]
    by_cases hq : q.query = "" <;> by_cases hs : q.sort = "" <;>
      by_cases hi : q.include_ = "" <;>
      simp [hq, hs, hi, hT, Url.push, List.append_assoc]
  · have hI : pageInvalid q.page = false := by
      simp [hp, pageInvalid]; omega
    cases net with
    | networkError m => simp [getScans, hI]
    | response r =>
        cases hj : r.jsonBody with
        | error m => simp [getScans, hI, hj]
        | ok d => simp [getScans, hI, hj]

/-- C6 witness: a concrete query with every kind of entry present. -/
theorem c6_query_encoding_witness :
    (scansListUrl
        { page := .num 2, query := "web", sort := "-name",
          filters := [("filter[state]", "completed")], pageSize := 25,
          fields := [("scans", "name,state")], include_ := "provider" }).params =
      [("page[number]", "2"), ("page[size]", "25"), ("filter[search]", "web"),
       ("sort", "-name"), ("include", "provider"),
       ("fields[scans]", "name,state"), ("filter[state]", "completed")] :=
  ((c6_query_encoding
      { page := .num 2, query := "web", sort := "-name",
        filters := [("filter[state]", "completed")], pageSize := 25,
        fields := [("scans", "name,state")], include_ := "provider" }
      (.networkError "down") 2 rfl (by decide) (by decide)).1).trans rfl

/-- C7: a 200 report response with body bytes `b` yields Ready whose
content is the base64 encoding of `b` and whose suggested filename is
derived from the scan id, and decoding the content reproduces `b` exactly. -/
theorem c7_report_roundtrip (scanId : String) (r : Response)
    (hs : r.status = 200) (hb : ∀ x ∈ r.bytes, x < 256) :
    (getExportsZip scanId (.response r)).1
      = .ready (B64.encode r.bytes) ("scan-" ++ scanId ++ "-report.zip") ∧
    B64.decode (B64.encode r.bytes) = some r.bytes := by
  constructor
  · simp [getExportsZip, artifactClassify, hs, Response.ok]
  · exact B64.decode_encode r.bytes hb

/-- C7 witness: a concrete three-byte report body. -/
theorem c7_report_roundtrip_witness :
    (getExportsZip "scan1"
        (.response { status := 200, bytes := [0, 255, 16, 77] })).1
      = .ready (B64.encode [0, 255, 16, 77]) "scan-scan1-report.zip" ∧
    B64.decode (B64.encode [0, 255, 16, 77]) = some [0, 255, 16, 77] :=
  c7_report_roundtrip "scan1" { status := 200, bytes := [0, 255, 16, 77] }
    rfl (by decide)

/-- C8: an invalid page (non-numeric or below one) makes `getScans` take
the redirect control transfer to the canonical listing view, with no
transport call and no value from the ordinary result channel. -/
theorem c8_invalid_page_redirects (q : ListQuery) (net : FetchResult)
    (h : pageInvalid q.page = true) :
    getScans q net = (.redirected "/scans", [.redirectTo "/scans"]) ∧
    fetchCount (getScans q net).2 = 0 := by
  constructor
  · simp [getScans, h]
  · simp [getScans, h, fetchCount, Effect.isFetch]

/-- C8 witness: page zero redirects even when the network would fail. -/
theorem c8_invalid_page_redirects_witness :
    getScans { page := .num 0 } (.networkError "down")
      = (.redirected "/scans", [.redirectTo "/scans"]) ∧
    fetchCount (getScans { page := .num 0 } (.networkError "down")).2 = 0 :=
  c8_invalid_page_redirects { page := .num 0 } (.networkError "down") (by decide)

/-- C9: `scanOnDemand` with no provider identifier returns the
required-field error object and never invokes the transport: the
validation happens before any network call. -/
theorem c9_missing_provider (scanName : Option String) (net : FetchResult) :
    scanOnDemand none scanName net = (.err "Provider ID is required", []) ∧
    fetchCount (scanOnDemand none scanName net).2 = 0 := by
  constructor
  · simp [scanOnDemand, formTruthy]
  · simp [scanOnDemand, formTruthy, fetchCount]

/-- C9 witness: a concrete missing-provider call with a live network
oracle still performs no transport call. -/
theorem c9_missing_provider_witness :
    scanOnDemand none (some "nightly") (.networkError "down")
      = (.err "Provider ID is required", []) ∧
    fetchCount (scanOnDemand none (some "nightly") (.networkError "down")).2 = 0 :=
  c9_missing_provider (some "nightly") (.networkError "down")

/-- C10: the non-mutating `getScans` also emits exactly one scans-view
invalidation on every successful fetch, directly after the transport
call. -/
theorem c10_list_fetch_revalidates (q : ListQuery) (r : Response) (d : Json)
    (hv : pageInvalid q.page = false) (hj : r.jsonBody = .ok d) :
    (getScans q (.response r)).2
      = [.fetch (scansListUrl q) none, .revalidate "/scans"] ∧
    invalidations (getScans q (.response r)).2 = 1 := by
  constructor
  · simp [getScans, hv, hj]
  · simp [getScans, hv, hj, invalidations, Effect.isScansInvalidation]

/-- C10 witness: a successful default-query fetch revalidates once. -/
theorem c10_list_fetch_revalidates_witness :
    (getScans {} (.response { status := 200, jsonBody := .ok .null })).2
      = [.fetch (scansListUrl {}) none, .revalidate "/scans"] ∧
    invalidations (getScans {} (.response { status := 200, jsonBody := .ok .null })).2 = 1 :=
  c10_list_fetch_revalidates {} { status := 200, jsonBody := .ok .null } .null
    (by decide) rfl

end ScansFacade

namespace ScansFacade

/-- The error body of the spec example: an errors array whose first element
carries the detail "not found". -/
def notFoundErrors : Json :=
  .obj [("errors", .arr [.obj [("detail", .str "not found")]])]

/-- C1 counterexample: a 404 report response whose body is the errors-array
shape yields the fixed generic message, not the extracted detail "not
found" — refuting the claimed extraction at `errors[0].detail`. -/
theorem c1_detail_extraction_counterexample :
    (getExportsZip "scan1"
        (.response { status := 404, jsonBody := .ok notFoundErrors })).1
      = .err reportGenericMsg ∧
    reportGenericMsg ≠ "not found" := by
  exact ⟨rfl, by decide⟩

/-- C1 amended: the artifact retrievers consult only `errors.detail` (never
`errors[0].detail`), so a non-2xx, non-202 response whose `errors` member is
an array falls back to the fixed generic message, while a truthy string at
`errors.detail` is surfaced as the failure message. -/
theorem c1_detail_extraction (scanId complianceId : String) (r : Response)
    (elems : List Json) (s : String)
    (hs202 : r.status ≠ 202) (hnok : r.ok = false) :
    (r.jsonBody = .ok (.obj [("errors", .arr elems)]) →
      (getExportsZip scanId (.response r)).1 = .err reportGenericMsg ∧
      (getComplianceCsv scanId complianceId (.response r)).1
        = .err complianceGenericMsg) ∧
    (r.jsonBody = .ok (.obj [("errors", .obj [("detail", .str s)])]) → s ≠ "" →
      (getExportsZip scanId (.response r)).1 = .err s ∧
      (getComplianceCsv scanId complianceId (.response r)).1 = .err s) := by
  constructor
  · intro hj
    constructor <;>
      simp [getExportsZip, getComplianceCsv, artifactClassify, hs202, hnok, hj,
        artifactErrMsg, jsGetOpt, lookupField, getErrorMessage]
  · intro hj hs
    constructor <;>
      simp [getExportsZip, getComplianceCsv, artifactClassify, hs202, hnok, hj,
        artifactErrMsg, jsGetOpt, lookupField, jsTruthy, jsToString, hs,
        getErrorMessage]

/-- C1 witness: the amended behaviour at the concrete 404 errors-array
response of the spec example. -/
theorem c1_detail_extraction_witness :
    (getExportsZip "scan1"
        (.response { status := 404, jsonBody := .ok notFoundErrors })).1
      = .err reportGenericMsg ∧
    (getComplianceCsv "scan1" "aws-cis" 
        (.response { status := 404, jsonBody := .ok notFoundErrors })).1
      = .err complianceGenericMsg :=
  (c1_detail_extraction "scan1" "aws-cis"
      { status := 404, jsonBody := .ok notFoundErrors }
      [.obj [("detail", .str "not found")]] "unused"
      (by decide) (by decide)).1 rfl

/-- A non-2xx update response whose body still parses as JSON. -/
def failedUpdateResp : Response :=
  { status := 500,
    jsonBody := .ok (.obj [("errors", .arr [.obj [("detail", .str "boom")]])]) }

/-- C2 counterexample: an `updateScan` call whose response is non-2xx (a
failed update) still emits one scans-view invalidation, refuting the
zero-notifications-on-failure claim. -/
theorem c2_update_invalidation_counterexample :
    Response.ok failedUpdateResp = false ∧
    invalidations
        (updateScan (some "s1") (some "renamed")
          (.response failedUpdateResp)).2 = 1 := by
  exact ⟨rfl, rfl⟩

/-- C2 amended: `updateScan` never inspects the response status; it emits
exactly one scans-view invalidation, strictly after the transport call,
whenever the fetch returns a response whose body parses as JSON — whatever
the HTTP status — and zero invalidations on a transport error or a
body-parse error. -/
theorem c2_update_invalidation (scanId scanName : Option String)
    (net : FetchResult) :
    (∀ m, net = .networkError m →
      invalidations (updateScan scanId scanName net).2 = 0) ∧
    (∀ r m, net = .response r → r.jsonBody = .error m →
      invalidations (updateScan scanId scanName net).2 = 0) ∧
    (∀ r d, net = .response r → r.jsonBody = .ok d →
      (updateScan scanId scanName net).2
        = [.fetch { base := apiBaseUrl ++ "/scans/" ++ tmplStr scanId }
             (some (updateScanBody scanId scanName)),
           .revalidate "/scans"] ∧
      invalidations (updateScan scanId scanName net).2 = 1) := by
  refine ⟨?_, ?_, ?_⟩
  · intro m hm
    subst hm
    simp [updateScan, invalidations, Effect.isScansInvalidation]
  · intro r m hr hj
    subst hr
    simp [updateScan, hj, invalidations, Effect.isScansInvalidation]
  · intro r d hr hj
    subst hr
    constructor <;>
      simp [updateScan, hj, invalidations, Effect.isScansInvalidation]

/-- C2 witness: the amended behaviour at a concrete failed (500) update. -/
theorem c2_update_invalidation_witness :
    (updateScan (some "s1") (some "renamed") (.response failedUpdateResp)).2
      = [.fetch { base := apiBaseUrl ++ "/scans/" ++ tmplStr (some "s1") }
           (some (updateScanBody (some "s1") (some "renamed"))),
         .revalidate "/scans"] ∧
    invalidations
        (updateScan (some "s1") (some "renamed")
          (.response failedUpdateResp)).2 = 1 :=
  (c2_update_invalidation (some "s1") (some "renamed")
      (.response failedUpdateResp)).2.2 failedUpdateResp
    (.obj [("errors", .arr [.obj [("detail", .str "boom")]])]) rfl rfl

/-- C3 counterexample: a transport error in the list operations produces the
bare JavaScript `undefined` result — a value carrying no error message at
all — refuting the claim that every failure becomes an error-message
value. -/
theorem c3_err_value_counterexample :
    (getScans {} (.networkError "connection reset")).1 = .undef ∧
    (getScansByState (.networkError "connection reset")).1 = .undef := by
  exact ⟨rfl, rfl⟩

/-- C3 amended: every operation converts every failure into a returned
value (the redirect for invalid pagination being the lone control
transfer), but not uniformly into a message-carrying error: on a transport
error the two list fetches return `undefined`, while the remaining six
operations return an error object carrying the message. -/
theorem c3_err_value (m : String) (q : ListQuery) (scanId complianceId : String)
    (pid name : Option String)
    (hq : pageInvalid q.page = false) (hpid : formTruthy pid = true) :
    (getScans q (.networkError m)).1 = .undef ∧
    (getScansByState (.networkError m)).1 = .undef ∧
    (getScan scanId (.networkError m)).1 = .err (getErrorMessage m) ∧
    (scanOnDemand pid name (.networkError m)).1 = .err (getErrorMessage m) ∧
    (scheduleDaily pid (.networkError m)).1 = .err (getErrorMessage m) ∧
    (updateScan pid name (.networkError m)).1 = .err (getErrorMessage m) ∧
    (getExportsZip scanId (.networkError m)).1 = .err (getErrorMessage m) ∧
    (getComplianceCsv scanId complianceId (.networkError m)).1
      = .err (getErrorMessage m) := by
  refine ⟨?_, ?_, ?_, ?_, ?_, ?_, ?_, ?_⟩ <;>
    simp [getScans, hq, getScansByState, getScan, scanOnDemand, hpid,
      scheduleDaily, updateScan, getExportsZip, getComplianceCsv,
      artifactClassify]

/-- C3 witness: the amended behaviour at a concrete transport failure. -/
theorem c3_err_value_witness :
    (getScans {} (.networkError "offline")).1 = .undef ∧
    (getScansByState (.networkError "offline")).1 = .undef ∧
    (getScan "s1" (.networkError "offline")).1 = .err (getErrorMessage "offline") ∧
    (scanOnDemand (some "p1") none (.networkError "offline")).1
      = .err (getErrorMessage "offline") ∧
    (scheduleDaily (some "p1") (.networkError "offline")).1
      = .err (getErrorMessage "offline") ∧
    (updateScan (some "p1") none (.networkError "offline")).1
      = .err (getErrorMessage "offline") ∧
    (getExportsZip "s1" (.networkError "offline")).1
      = .err (getErrorMessage "offline") ∧
    (getComplianceCsv "s1" "aws-cis" (.networkError "offline")).1
      = .err (getErrorMessage "offline") :=
  c3_err_value "offline" {} "s1" "aws-cis" (some "p1") none
    (by decide) (by decide)

/-- An error body carrying `errors[0].detail` = "quota exceeded". -/
def quotaErrors : Json :=
  .obj [("errors", .arr [.obj [("detail", .str "quota exceeded")]])]

/-- C4 counterexample: a failed `scheduleDaily` ignores the error body and
reports a message built from the status text, not the `errors[0].detail`
that the shared-normalization claim requires. -/
theorem c4_error_normalization_counterexample :
    (scheduleDaily (some "p1")
        (.response { status := 500, statusText := "Internal Server Error",
                     jsonBody := .ok quotaErrors })).1
      = .err "Failed to schedule daily: Internal Server Error" ∧
    "Failed to schedule daily: Internal Server Error" ≠ "quota exceeded" := by
  exact ⟨rfl, by decide⟩

/-- C4 amended: the three mutations do not share one normalization rule for
non-2xx responses: `scanOnDemand` returns the `errors[0].detail` extraction
in a success-flagged error object (a missing path throws into its catch),
`scheduleDaily` surfaces a message built from the status text without
reading the body, and `updateScan` performs no status check at all and
returns the parsed error body as if it were data. -/
theorem c4_error_normalization (r : Response) (pid name : Option String)
    (d : Json) (detail : Option Json)
    (hnok : r.ok = false) (hpid : formTruthy pid = true)
    (hj : r.jsonBody = .ok d) (hd : mutationErrorDetail d = .ok detail) :
    (scanOnDemand pid name (.response r)).1 = .errFlagged detail ∧
    (scheduleDaily pid (.response r)).1
      = .err (getErrorMessage ("Failed to schedule daily: " ++ r.statusText)) ∧
    (updateScan pid name (.response r)).1 = .doc (parseStringify d) := by
  refine ⟨?_, ?_, ?_⟩ <;>
    simp [scanOnDemand, hpid, hnok, hj, hd, scheduleDaily, updateScan]

/-- C4 witness: the amended behaviour at a concrete 500 with a detailed
error body. -/
theorem c4_error_normalization_witness :
    (scanOnDemand (some "p1") none
        (.response { status := 500, statusText := "Internal Server Error",
                     jsonBody := .ok quotaErrors })).1
      = .errFlagged (some (.str "quota exceeded")) ∧
    (scheduleDaily (some "p1")
        (.response { status := 500, statusText := "Internal Server Error",
                     jsonBody := .ok quotaErrors })).1
      = .err (getErrorMessage ("Failed to schedule daily: " ++ "Internal Server Error")) ∧
    (updateScan (some "p1") none
        (.response { status := 500, statusText := "Internal Server Error",
                     jsonBody := .ok quotaErrors })).1
      = .doc (parseStringify quotaErrors) :=
  c4_error_normalization
    { status := 500, statusText := "Internal Server Error",
      jsonBody := .ok quotaErrors }
    (some "p1") none quotaErrors (some (.str "quota exceeded"))
    rfl (by decide) rfl rfl

/-- C5 counterexample: a 202 report response whose body is an empty object
yields a Pending value whose `taskId` and `state` are both `undefined` —
refuting the claim that every 202, whatever its body, produces a Pending
carrying actual strings. -/
theorem c5_pending_populated_counterexample :
    (getExportsZip "scan1"
        (.response { status := 202, jsonBody := .ok (.obj []) })).1
      = .pending none none := by
  exact rfl

/-- C5 amended: every artifact outcome is exactly one variant, but on a 202
whose body parses the Pending value carries exactly the optional-chain
extractions `json?.data?.id` and `json?.data?.attributes?.state`, which are
`undefined` when the body lacks them; with the documented body shape they
are the task id and state strings. -/
theorem c5_pending_populated (scanId complianceId : String) (r : Response)
    (j : Json) (h202 : r.status = 202) (hj : r.jsonBody = .ok j) :
    (getExportsZip scanId (.response r)).1
      = .pending (pendingInfo j).1 (pendingInfo j).2 ∧
    (getComplianceCsv scanId complianceId (.response r)).1
      = .pending (pendingInfo j).1 (pendingInfo j).2 := by
  constructor <;>
    simp [getExportsZip, getComplianceCsv, artifactClassify, h202, hj]

/-- The 202 body of the spec example: task t1 in state running. -/
def runningTaskBody : Json :=
  .obj [("data", .obj [("id", .str "t1"),
                       ("attributes", .obj [("state", .str "running")])])]

/-- C5 witness: the spec example body — a 202 with task id t1 in state
running — yields that task id and state. -/
theorem c5_pending_populated_witness :
    (getExportsZip "scan1"
        (.response { status := 202, jsonBody := .ok runningTaskBody })).1
      = .pending (some (.str "t1")) (some (.str "running")) :=
  ((c5_pending_populated "scan1" "aws-cis"
      { status := 202, jsonBody := .ok runningTaskBody }
      runningTaskBody rfl rfl).1).trans rfl

end ScansFacade
